import Mathlib

unseal Rat.add Rat.mul Rat.sub Rat.inv

deriving instance DecidableEq for Except

/-!
Verification of the detection pipeline of `src/dynamic_object_detector.py`
(lidar_editor).  Points are embedded as triples of rationals (exact
arithmetic in place of IEEE floats), numpy index arrays as `List ℕ`,
numpy boolean masks as `List Bool`.  Comparisons that the source performs
on a Euclidean norm (`np.linalg.norm`, the plane distance) are embedded in
the equivalent squared form, exact over ℚ for the nonnegative thresholds
the program uses.  The two external randomized collaborators —
open3d's `segment_plane` RANSAC and `np.random.choice` — are passed in as
explicit arguments (`ransacOutcome`, `sample`) standing for their outcome.
-/

namespace LidarEditor

/-- A 3-D point (x, y, z), one row of the numpy `(N, 3)` point array. -/
structure Pt where
  x : ℚ
  y : ℚ
  z : ℚ
deriving DecidableEq, Repr

instance : Inhabited Pt := ⟨⟨0, 0, 0⟩⟩

/-- Ground plane coefficients `[a, b, c, d]` for `ax + by + cz + d = 0`. -/
structure Plane where
  a : ℚ
  b : ℚ
  c : ℚ
  d : ℚ
deriving DecidableEq, Repr

/-- The `self.detection_params` dictionary of `DynamicObjectDetector.__init__`. -/
structure DetectionParams where
  height_threshold : ℚ
  cluster_eps : ℚ
  cluster_min_samples : ℕ
  vehicle_height_range : ℚ × ℚ
  vehicle_width_range : ℚ × ℚ
  vehicle_length_range : ℚ × ℚ
  density_threshold : ℚ
  road_width_estimate : ℚ
deriving DecidableEq, Repr

/-- The default parameter values set in `DynamicObjectDetector.__init__`. -/
def defaultParams : DetectionParams where
  height_threshold := 1/5
  cluster_eps := 1/2
  cluster_min_samples := 10
  vehicle_height_range := (1/2, 3)
  vehicle_width_range := (1, 3)
  vehicle_length_range := (2, 8)
  density_threshold := 1/10
  road_width_estimate := 20

/-- Squared Euclidean distance between two points. -/
def sqDist (p q : Pt) : ℚ :=
  (p.x - q.x)^2 + (p.y - q.y)^2 + (p.z - q.z)^2

/-- `sqDist p q ≤ eps^2`, the exact-arithmetic form of
`euclidean distance ≤ eps` used for DBSCAN neighborhoods (`eps ≥ 0`). -/
def closeB (eps : ℚ) (p q : Pt) : Bool :=
  decide (sqDist p q ≤ eps^2)

/-- `numpy`-style fancy indexing by boolean mask: `xs[mask]`. -/
def maskSelect {α : Type} : List α → List Bool → List α
  | [], _ => []
  | _, [] => []
  | x :: xs, b :: bs => if b then x :: maskSelect xs bs else maskSelect xs bs

/-- `np.sum` of a boolean mask. -/
def countTrue (bs : List Bool) : ℕ :=
  (bs.filter id).length

/-!
## DBSCAN model

Modelled from the spec: the source calls `sklearn.cluster.DBSCAN(eps,
min_samples).fit(pts)` — an external library.  Spec §4.3 fixes its
semantics: two points are neighbors iff their Euclidean distance is ≤
`eps`; a point is core iff it has at least `min_samples` neighbors
(itself included); a cluster is a maximal set of core points connected
through chains of eps-neighbors together with the non-core (border)
points adjacent to it; points adjacent to no core point get label `-1`
(noise).  The model below realizes exactly that: labels depend only on a
point's coordinates; equal points always share a label.  Cluster numbers
follow the order of first occurrence of each connected component's first
core location, and a border point adjacent to several clusters is given
the first of them in that order (the spec leaves this tie-break open).
-/

/-- Fuel-driven helper for `firstDedup` (structural recursion, so that
proofs can evaluate it); the fuel is an upper bound on the list length. -/
def firstDedupAux : ℕ → List Pt → List Pt
  | 0, _ => []
  | _, [] => []
  | fuel + 1, a :: l =>
    a :: firstDedupAux fuel (l.filter (fun b => decide (b ≠ a)))

/-- Distinct locations occurring in a point list, in order of first
occurrence. -/
def firstDedup (l : List Pt) : List Pt :=
  firstDedupAux l.length l

/-- Number of points of `pts` (with multiplicity) within `eps` of `r`. -/
def nbrCount (pts : List Pt) (eps : ℚ) (r : Pt) : ℕ :=
  (pts.filter (closeB eps r)).length

/-- Core-point test: at least `ms` neighbors, the point itself included. -/
def isCorePt (pts : List Pt) (eps : ℚ) (ms : ℕ) (r : Pt) : Bool :=
  decide (ms ≤ nbrCount pts eps r)

/-- The distinct core locations, in order of first occurrence. -/
def corePts (pts : List Pt) (eps : ℚ) (ms : ℕ) : List Pt :=
  (firstDedup pts).filter (isCorePt pts eps ms)

/-- One step of density-connectivity closure: all core locations adjacent
to the current set. -/
def expandOnce (cores : List Pt) (eps : ℚ) (s : List Pt) : List Pt :=
  cores.filter (fun r => s.any (fun q => closeB eps r q))

/-- Iterated closure. -/
def iterClose (cores : List Pt) (eps : ℚ) : ℕ → List Pt → List Pt
  | 0, s => s
  | n + 1, s => iterClose cores eps n (expandOnce cores eps s)

/-- The connected component (within the core locations) of `r`. -/
def reachSet (cores : List Pt) (eps : ℚ) (r : Pt) : List Pt :=
  iterClose cores eps cores.length [r]

/-- The first core location, in list order, of `r`'s component. -/
def leaderOf (cores : List Pt) (eps : ℚ) (r : Pt) : Pt :=
  ((cores.filter (fun c => decide (c ∈ reachSet cores eps r))).headD r)

/-- The component leaders in order of first appearance; position = cluster id. -/
def leaders (cores : List Pt) (eps : ℚ) : List Pt :=
  firstDedup (cores.map (leaderOf cores eps))

/-- DBSCAN label of a single point (see the section comment above). -/
def labelOf (pts : List Pt) (eps : ℚ) (ms : ℕ) (p : Pt) : Int :=
  let cores := corePts pts eps ms
  let lds := leaders cores eps
  if isCorePt pts eps ms p then
    Int.ofNat (lds.findIdx (fun c => decide (c = leaderOf cores eps p)))
  else
    match (cores.filter (fun r => closeB eps p r)).head? with
    | some r => Int.ofNat (lds.findIdx (fun c => decide (c = leaderOf cores eps r)))
    | none => -1

/-- `DBSCAN(eps, min_samples).fit(pts).labels_`. -/
def dbscanLabels (pts : List Pt) (eps : ℚ) (ms : ℕ) : List Int :=
  pts.map (labelOf pts eps ms)

/-- `np.unique(labels)`: the distinct labels in ascending order. -/
def uniqueLabels (ls : List Int) : List Int :=
  List.insertionSort (fun a b => a ≤ b) ls.dedup

/-!
## The detector's own functions (from `src/dynamic_object_detector.py`)
-/

/-- `np.percentile(zs, 10)` with numpy's default linear interpolation;
`none` on an empty array (numpy raises there).  Embeds line 94. -/
def percentile10 (zs : List ℚ) : Option ℚ :=
  if zs = [] then none
  else
    let s := List.insertionSort (fun a b => a ≤ b) zs
    let q : ℚ := ((s.length - 1 : ℕ) : ℚ) * 10 / 100
    let i : ℕ := ⌊q⌋₊
    let fr : ℚ := q - (i : ℚ)
    some (s.getD i 0 + fr * (s.getD (i + 1) (s.getD i 0) - s.getD i 0))

/-- Point-above-plane test of `filter_by_height` (lines 98–104): the source
compares `|a·x + b·y + c·z + d| / sqrt(a² + b² + c²) > height_threshold`;
squaring both sides gives the exact ℚ form below (equivalent for the
nonnegative thresholds the program uses). -/
def aboveB (params : DetectionParams) (pl : Plane) (p : Pt) : Bool :=
  decide (params.height_threshold^2 * (pl.a^2 + pl.b^2 + pl.c^2) <
    (pl.a * p.x + pl.b * p.y + pl.c * p.z + pl.d)^2)

/-- `DynamicObjectDetector.filter_by_height` (lines 80–105).  Returns
`(above_ground_indices, ground_indices)`; `none` embeds the numpy error
raised by `np.percentile` on an empty array. -/
def filter_by_height (params : DetectionParams) (plane : Option Plane)
    (points : List Pt) : Option (List ℕ × List ℕ) :=
  match plane with
  | none =>
    match percentile10 (points.map Pt.z) with
    | none => none
    | some p10 =>
      let thr := p10 + params.height_threshold
      some ((List.range points.length).filter
              (fun i => decide (thr < (points.getD i default).z)),
            (List.range points.length).filter
              (fun i => !(decide (thr < (points.getD i default).z))))
  | some pl =>
    some ((List.range points.length).filter
            (fun i => aboveB params pl (points.getD i default)),
          (List.range points.length).filter
            (fun i => !(aboveB params pl (points.getD i default))))

/-- Modelled from the spec: `DynamicObjectDetector.detect_ground_plane`
(lines 51–78) delegates to open3d's `segment_plane`, an external RANSAC
whose code is not in this repository.  Spec §4.1: the estimator returns
`none` when the point set has fewer than `sample_size = 3` points or no
valid plane is found; otherwise the fitted plane.  The randomized fit
itself is supplied as the explicit argument `ransacOutcome`. -/
def detect_ground_plane (points : List Pt) (ransacOutcome : Option Plane) :
    Option Plane :=
  if points.length < 3 then none else ransacOutcome

/-- The subsample size computed on lines 130–131:
`int(n * min(0.3, 20000 / n))`. -/
def sampleSize (n : ℕ) : ℕ :=
  ⌊(n : ℚ) * min (3/10 : ℚ) (20000 / (n : ℚ))⌋₊

/-- `np.mean(pts, axis=0)`. -/
def centroid (l : List Pt) : Pt :=
  ⟨(l.map Pt.x).sum / (l.length : ℚ),
   (l.map Pt.y).sum / (l.length : ℚ),
   (l.map Pt.z).sum / (l.length : ℚ)⟩

/-- `DynamicObjectDetector.cluster_points` (lines 107–184).  `sample` is
the index list drawn by `np.random.choice(len(cluster_points),
sample_size, replace=False)` on line 132, supplied explicitly. -/
def cluster_points (params : DetectionParams) (points : List Pt)
    (indices : List ℕ) (sample : List ℕ) : List (List ℕ) :=
  if indices.length = 0 then []
  else
    let cpts := indices.map (fun i => points.getD i default)
    if 30000 < cpts.length then
      let spts := sample.map (fun i => cpts.getD i default)
      let labels := dbscanLabels spts params.cluster_eps
        (max 5 (params.cluster_min_samples / 2))
      ((uniqueLabels labels).filter (fun l => !(decide (l = -1)))).filterMap
        (fun l =>
          let mask := labels.map (fun x => decide (x = l))
          let center := centroid (maskSelect spts mask)
          let within := cpts.map
            (fun p => decide (sqDist p center ≤ (params.cluster_eps * (3/2))^2))
          if params.cluster_min_samples ≤ countTrue within then
            some (maskSelect indices within)
          else none)
    else
      let labels := dbscanLabels cpts params.cluster_eps
        params.cluster_min_samples
      ((uniqueLabels labels).filter (fun l => !(decide (l = -1)))).map
        (fun l => maskSelect indices (labels.map (fun x => decide (x = l))))

/-- Minimum of a rational list (`np.min`; clusters are nonempty where the
source takes it). -/
def minQ : List ℚ → ℚ
  | [] => 0
  | a :: r => r.foldl min a

/-- Maximum of a rational list (`np.max`). -/
def maxQ : List ℚ → ℚ
  | [] => 0
  | a :: r => r.foldl max a

/-- `sorted([a, b, c])` for three rationals, as (smallest, middle, largest). -/
def sort3 (a b c : ℚ) : ℚ × ℚ × ℚ :=
  (min a (min b c), a + b + c - min a (min b c) - max a (max b c),
   max a (max b c))

/-- The dictionary returned by `analyze_cluster_geometry`. -/
structure ClusterGeometry where
  center : Pt
  dims : Pt
  volume : ℚ
  density : ℚ
  num_points : ℕ
  vehicle_like : Bool
  min_bound : Pt
  max_bound : Pt
deriving DecidableEq, Repr

/-- `DynamicObjectDetector.analyze_cluster_geometry` (lines 186–229). -/
def analyze_cluster_geometry (params : DetectionParams) (points : List Pt)
    (cluster_indices : List ℕ) : ClusterGeometry :=
  let cp := cluster_indices.map (fun i => points.getD i default)
  let minB : Pt := ⟨minQ (cp.map Pt.x), minQ (cp.map Pt.y), minQ (cp.map Pt.z)⟩
  let maxB : Pt := ⟨maxQ (cp.map Pt.x), maxQ (cp.map Pt.y), maxQ (cp.map Pt.z)⟩
  let dims : Pt := ⟨maxB.x - minB.x, maxB.y - minB.y, maxB.z - minB.z⟩
  let volume := dims.x * dims.y * dims.z
  let density := (cp.length : ℚ) / max volume (1/1000000)
  let s := sort3 dims.x dims.y dims.z
  let vehicle_like :=
    decide (params.vehicle_height_range.1 ≤ s.1 ∧
            s.1 ≤ params.vehicle_height_range.2) &&
    decide (params.vehicle_width_range.1 ≤ s.2.1 ∧
            s.2.1 ≤ params.vehicle_width_range.2) &&
    decide (params.vehicle_length_range.1 ≤ s.2.2 ∧
            s.2.2 ≤ params.vehicle_length_range.2)
  ⟨⟨(minB.x + maxB.x) / 2, (minB.y + maxB.y) / 2, (minB.z + maxB.z) / 2⟩,
   dims, volume, density, cp.length, vehicle_like, minB, maxB⟩

/-- The per-cluster decision of `classify_clusters` (lines 245–273):
`False` for clusters of fewer than 5 points, else the
vehicle-like / low-density / tall chain of flags. -/
def isDynamicCluster (params : DetectionParams) (points : List Pt)
    (cluster_indices : List ℕ) : Bool :=
  if cluster_indices.length < 5 then false
  else
    let g := analyze_cluster_geometry params points cluster_indices
    g.vehicle_like || decide (g.density < params.density_threshold) ||
      decide ((4 : ℚ) < g.dims.z)

/-- `DynamicObjectDetector.classify_clusters` (lines 231–276):
`(dynamic_clusters, static_clusters)` in input order. -/
def classify_clusters (params : DetectionParams) (points : List Pt)
    (clusters : List (List ℕ)) : List (List ℕ) × List (List ℕ) :=
  (clusters.filter (isDynamicCluster params points),
   clusters.filter (fun c => !(isDynamicCluster params points c)))

/-- The `DetectionResult` dataclass. -/
structure DetectionResult where
  dynamic_indices : List ℕ
  static_indices : List ℕ
  clusters : List (List ℕ)
  confidence_scores : List ℚ
  method_used : String
deriving DecidableEq, Repr

/-- Steps 3–6 of `detect_dynamic_objects` (lines 299–328), split over the
height-filter outcome so that the embedding has one equation per case;
the `none` case propagates the numpy error that `np.percentile` raises on
an empty array.  The final confidence array embeds the sequential numpy
writes `ones; [dynamic] = 0.8; [static] = 0.9`, so a static write wins
over an earlier dynamic write at the same index. -/
def detect_after_filter (params : DetectionParams) (method : String)
    (points : List Pt) (sample : List ℕ) :
    Option (List ℕ × List ℕ) → Except String DetectionResult
  | none => .error "cannot do a non-empty take from an empty axes"
  | some (above_ground_indices, ground_indices) =>
    let clusters := cluster_points params points above_ground_indices sample
    let dynamic_clusters := (classify_clusters params points clusters).1
    let static_clusters := (classify_clusters params points clusters).2
    let dynamic_indices := dynamic_clusters.flatten
    let static_indices := ground_indices ++ static_clusters.flatten
    let confidence_scores := (List.range points.length).map (fun i =>
      if i ∈ static_indices then (9/10 : ℚ)
      else if i ∈ dynamic_indices then 8/10 else 1)
    .ok ⟨dynamic_indices, static_indices, clusters, confidence_scores,
      method⟩

/-- `DynamicObjectDetector.detect_dynamic_objects` (lines 278–328).
`point_cloud` is the `self.point_cloud` session field (`none` = never
set); `ransacOutcome` and `sample` stand for the two external randomized
calls (see `detect_ground_plane`, `cluster_points`). -/
def detect_dynamic_objects (params : DetectionParams) (method : String) :
    Option (List Pt) → Option Plane → List ℕ →
      Except String DetectionResult
  | none, _, _ => .error "No point cloud set"
  | some points, ransacOutcome, sample =>
    detect_after_filter params method points sample
      (filter_by_height params (detect_ground_plane points ransacOutcome)
        points)

/-- `DynamicObjectDetector.refine_detection` (lines 330–344): the
machine-learning refinement is a placeholder that returns its input. -/
def refine_detection (result : DetectionResult)
    (user_corrections : List (String × String)) : DetectionResult :=
  result

/-!
## Spec-side definitions

The following definitions follow the words of the spec (for the
refinement claims); they are compared against the source-side embeddings
above.
-/

/-- Follows the spec's words (§4.4): per-axis size = max − min of the
cluster's coordinates along that axis. -/
def specSizes (points : List Pt) (c : List ℕ) : Pt :=
  let cp := c.map (fun i => points.getD i default)
  ⟨maxQ (cp.map Pt.x) - minQ (cp.map Pt.x),
   maxQ (cp.map Pt.y) - minQ (cp.map Pt.y),
   maxQ (cp.map Pt.z) - minQ (cp.map Pt.z)⟩

/-- Follows the spec's words (§4.4): sort the three size components
ascending to get (height, width, length) and test each against the
configured ranges. -/
def specVehicleLike (params : DetectionParams) (points : List Pt)
    (c : List ℕ) : Bool :=
  let s := specSizes points c
  match List.insertionSort (fun u v => u ≤ v) [s.x, s.y, s.z] with
  | [h, w, l] =>
    decide (params.vehicle_height_range.1 ≤ h ∧
            h ≤ params.vehicle_height_range.2 ∧
            params.vehicle_width_range.1 ≤ w ∧
            w ≤ params.vehicle_width_range.2 ∧
            params.vehicle_length_range.1 ≤ l ∧
            l ≤ params.vehicle_length_range.2)
  | _ => false

/-- Follows the spec's words (§4.4): volume = product of sizes, clamped
to a small positive floor; density = point count / volume. -/
def specDensity (points : List Pt) (c : List ℕ) : ℚ :=
  let s := specSizes points c
  (c.length : ℚ) / max (s.x * s.y * s.z) (1/1000000)

/-- Follows the spec's words (§4.5): the rule chain, first match wins:
fewer than 5 points → static; vehicle-like → dynamic; density below the
threshold → dynamic; max Z extent above 4.0 m → dynamic; else static
(`true` = dynamic). -/
def classifyRuleSpec (params : DetectionParams) (points : List Pt)
    (c : List ℕ) : Bool :=
  if c.length < 5 then false
  else if specVehicleLike params points c then true
  else if specDensity points c < params.density_threshold then true
  else if 4 < (specSizes points c).z then true
  else false

/-- Follows the spec's words (§4.3, large-dataset path): run exact
clustering on the subsample with the relaxed `min_samples`; for each
non-noise subsample cluster compute the centroid of its sampled points,
assign every candidate point whose distance to that centroid is at most
`1.5 × eps` to the cluster, and keep the expanded cluster only if its
point count still meets `min_samples`. -/
def largeClusterSpec (params : DetectionParams) (points : List Pt)
    (indices : List ℕ) (sample : List ℕ) : List (List ℕ) :=
  let cand := indices.map (fun i => points.getD i default)
  let spts := sample.map (fun i => cand.getD i default)
  let labels := dbscanLabels spts params.cluster_eps
    (max 5 (params.cluster_min_samples / 2))
  ((uniqueLabels labels).filter (fun l => !(decide (l = -1)))).filterMap
    (fun l =>
      let members := ((spts.zip labels).filter
        (fun pl => decide (pl.2 = l))).map Prod.fst
      let ctr := centroid members
      let expanded := ((indices.zip cand).filter
        (fun ip => decide (sqDist ip.2 ctr ≤
          (params.cluster_eps * (3/2))^2))).map Prod.fst
      if params.cluster_min_samples ≤ expanded.length then some expanded
      else none)

/-!
## General helper lemmas
-/

theorem maskSelect_append {α : Type} (xs ys : List α) (bs cs : List Bool)
    (h : xs.length = bs.length) :
    maskSelect (xs ++ ys) (bs ++ cs) = maskSelect xs bs ++ maskSelect ys cs := by
  induction xs generalizing bs with
  | nil =>
    cases bs with
    | nil => simp [maskSelect]
    | cons b bs => simp at h
  | cons x xs ih =>
    cases bs with
    | nil => simp at h
    | cons b bs =>
      simp only [List.length_cons, Nat.succ_inj] at h
      cases b <;> simp [maskSelect, ih _ h]

theorem maskSelect_replicate_true {α : Type} (xs : List α) :
    maskSelect xs (List.replicate xs.length true) = xs := by
  induction xs with
  | nil => simp [maskSelect]
  | cons x xs ih => simpa [maskSelect, List.replicate_succ] using ih

theorem maskSelect_replicate_false {α : Type} (xs : List α) (k : ℕ) :
    maskSelect xs (List.replicate k false) = [] := by
  induction xs generalizing k with
  | nil => simp [maskSelect]
  | cons x xs ih =>
    cases k with
    | zero => simp [maskSelect]
    | succ k => simpa [maskSelect, List.replicate_succ] using ih k

theorem maskSelect_map_eq_zip {α β : Type} (xs : List α) (ys : List β)
    (p : β → Bool) :
    maskSelect xs (ys.map p) =
      ((xs.zip ys).filter (fun q => p q.2)).map Prod.fst := by
  induction xs generalizing ys with
  | nil => simp [maskSelect]
  | cons x xs ih =>
    cases ys with
    | nil => simp [maskSelect]
    | cons y ys =>
      by_cases h : p y
      · simp [maskSelect, List.zip_cons_cons, h, ih]
      · simp [maskSelect, List.zip_cons_cons, h, ih]

theorem countTrue_map_eq_filter_length {α : Type} (p : α → Bool)
    (l : List α) : countTrue (l.map p) = (l.filter p).length := by
  induction l with
  | nil => rfl
  | cons a l ih =>
    simp only [List.map_cons, countTrue, List.filter_cons, id] at ih ⊢
    by_cases h : p a
    · simp [h, ih]
    · simp [h, ih]

theorem zip_filter_snd_length {α β : Type} (xs : List α) (ys : List β)
    (p : β → Bool) (h : xs.length = ys.length) :
    (((xs.zip ys).filter (fun q => p q.2)).map Prod.fst).length =
      (ys.filter p).length := by
  induction xs generalizing ys with
  | nil =>
    cases ys with
    | nil => simp
    | cons y ys => simp at h
  | cons x xs ih =>
    cases ys with
    | nil => simp at h
    | cons y ys =>
      simp only [List.length_cons, Nat.succ_inj] at h
      by_cases hp : p y <;>
        simp [List.zip_cons_cons, List.filter_cons, hp, ih _ h]

theorem countTrue_append (bs cs : List Bool) :
    countTrue (bs ++ cs) = countTrue bs + countTrue cs := by
  simp [countTrue, List.filter_append]

theorem countTrue_replicate_true (k : ℕ) :
    countTrue (List.replicate k true) = k := by
  simp [countTrue, List.filter_replicate]

theorem countTrue_replicate_false (k : ℕ) :
    countTrue (List.replicate k false) = 0 := by
  simp [countTrue, List.filter_replicate]

theorem map_getD_range {α : Type} (l : List α) (d : α) :
    (List.range l.length).map (fun i => l.getD i d) = l := by
  apply List.ext_getElem
  · simp
  · intro n h1 h2
    simp only [List.getElem_map, List.getElem_range]
    exact List.getD_eq_getElem l d h2

theorem getD_replicate {α : Type} (a d : α) {n i : ℕ} (h : i < n) :
    (List.replicate n a).getD i d = a := by
  rw [List.getD_eq_getElem _ _ (by simpa using h)]
  simp

theorem filter_range_partition (p : ℕ → Bool) (n i : ℕ) (h : i < n) :
    (i ∈ (List.range n).filter p ∧ i ∉ (List.range n).filter (fun j => !(p j)))
    ∨ (i ∈ (List.range n).filter (fun j => !(p j)) ∧
       i ∉ (List.range n).filter p) := by
  by_cases hp : p i
  · exact Or.inl (by simp [List.mem_filter, List.mem_range, h, hp])
  · exact Or.inr (by simp [List.mem_filter, List.mem_range, h, hp])

theorem foldl_min_self (n : ℕ) (v : ℚ) :
    List.foldl min v (List.replicate n v) = v := by
  induction n with
  | zero => rfl
  | succ n ih => simpa [List.replicate_succ] using ih

theorem foldl_max_self (n : ℕ) (v : ℚ) :
    List.foldl max v (List.replicate n v) = v := by
  induction n with
  | zero => rfl
  | succ n ih => simpa [List.replicate_succ] using ih

theorem minQ_replicate_append (k : ℕ) (hk : k ≠ 0) (v : ℚ) (t : List ℚ) :
    minQ (List.replicate k v ++ t) = List.foldl min v t := by
  obtain ⟨k, rfl⟩ := Nat.exists_eq_succ_of_ne_zero hk
  simp [minQ, List.replicate_succ, List.foldl_append, foldl_min_self]

theorem maxQ_replicate_append (k : ℕ) (hk : k ≠ 0) (v : ℚ) (t : List ℚ) :
    maxQ (List.replicate k v ++ t) = List.foldl max v t := by
  obtain ⟨k, rfl⟩ := Nat.exists_eq_succ_of_ne_zero hk
  simp [maxQ, List.replicate_succ, List.foldl_append, foldl_max_self]

theorem firstDedupAux_fuel :
    ∀ (f1 : ℕ) (f2 : ℕ) (l : List Pt), l.length ≤ f1 → l.length ≤ f2 →
      firstDedupAux f1 l = firstDedupAux f2 l := by
  intro f1
  induction f1 with
  | zero =>
    intro f2 l h1 h2
    rw [Nat.le_zero] at h1
    rw [List.length_eq_zero] at h1
    subst h1
    cases f2 <;> rfl
  | succ f1 ih =>
    intro f2 l h1 h2
    cases l with
    | nil => cases f2 <;> rfl
    | cons a t =>
      cases f2 with
      | zero => exact absurd h2 (by simp)
      | succ f2 =>
        have ht1 : t.length ≤ f1 := by simpa using h1
        have ht2 : t.length ≤ f2 := by simpa using h2
        have hfl : (t.filter (fun b => decide (b ≠ a))).length ≤ t.length :=
          List.length_filter_le _ _
        show a :: firstDedupAux f1 (t.filter (fun b => decide (b ≠ a))) =
          a :: firstDedupAux f2 (t.filter (fun b => decide (b ≠ a)))
        rw [ih f2 _ (hfl.trans ht1) (hfl.trans ht2)]

theorem firstDedup_cons (a : Pt) (l : List Pt) :
    firstDedup (a :: l) =
      a :: firstDedup (l.filter (fun b => decide (b ≠ a))) := by
  show firstDedupAux (l.length + 1) (a :: l) = _
  show a :: firstDedupAux l.length (l.filter (fun b => decide (b ≠ a))) = _
  rw [firstDedupAux_fuel l.length
    (l.filter (fun b => decide (b ≠ a))).length _
    (List.length_filter_le _ _) le_rfl]
  rfl

theorem firstDedup_replicate_append (k : ℕ) (hk : k ≠ 0) (a : Pt)
    (l : List Pt) :
    firstDedup (List.replicate k a ++ l) =
      a :: firstDedup (l.filter (fun b => decide (b ≠ a))) := by
  obtain ⟨k, rfl⟩ := Nat.exists_eq_succ_of_ne_zero hk
  rw [List.replicate_succ, List.cons_append, firstDedup_cons]
  congr 1
  rw [List.filter_append, List.filter_replicate]
  simp

theorem firstDedup_nil : firstDedup [] = [] := rfl

theorem dedup_replicate {α : Type} [DecidableEq α] (k : ℕ) (hk : k ≠ 0)
    (a : α) : (List.replicate k a).dedup = [a] := by
  induction k with
  | zero => simp at hk
  | succ k ih =>
    cases Nat.eq_zero_or_pos k with
    | inl h => subst h; simp
    | inr h =>
      rw [List.replicate_succ,
        List.dedup_cons_of_mem (by simp [List.mem_replicate]; omega),
        ih (Nat.pos_iff_ne_zero.mp h)]

theorem insert_insert_self {α : Type} [DecidableEq α] (a : α) (l : List α) :
    (l.insert a).insert a = l.insert a := by
  by_cases h : a ∈ l
  · rw [List.insert_of_mem h, List.insert_of_mem h]
  · rw [List.insert_of_not_mem h]
    exact List.insert_of_mem (List.mem_cons_self a l)

theorem replicate_union {α : Type} [DecidableEq α] (k : ℕ) (hk : k ≠ 0)
    (a : α) (l : List α) : List.replicate k a ∪ l = l.insert a := by
  induction k with
  | zero => simp at hk
  | succ k ih =>
    cases Nat.eq_zero_or_pos k with
    | inl h =>
      subst h
      rw [List.replicate_succ, List.replicate_zero, List.cons_union,
        List.nil_union]
    | inr h =>
      rw [List.replicate_succ, List.cons_union, ih (Nat.pos_iff_ne_zero.mp h),
        insert_insert_self]

theorem centroid_replicate (k : ℕ) (hk : k ≠ 0) (p : Pt) :
    centroid (List.replicate k p) = p := by
  have hk0 : (k : ℚ) ≠ 0 := Nat.cast_ne_zero.mpr hk
  have h : ∀ q : ℚ, (k : ℚ) * q / (k : ℚ) = q := fun q =>
    mul_div_cancel_left₀ q hk0
  obtain ⟨px, py, pz⟩ := p
  simp [centroid, List.map_replicate, List.sum_replicate, nsmul_eq_mul, h]

/-- Sorting a three-element list agrees with the arithmetic `sort3`. -/
theorem insertionSort_triple (a b c : ℚ) :
    List.insertionSort (fun u v => u ≤ v) [a, b, c] =
      [(sort3 a b c).1, (sort3 a b c).2.1, (sort3 a b c).2.2] := by
  simp only [List.insertionSort, List.orderedInsert, sort3]
  by_cases hbc : b ≤ c
  · rw [if_pos hbc]
    simp only [List.orderedInsert]
    by_cases hab : a ≤ b
    · rw [if_pos hab]
      have h1 : min a (min b c) = a := by
        rw [min_eq_left hbc]; exact min_eq_left hab
      have h2 : max a (max b c) = c := by
        rw [max_eq_right hbc]; exact max_eq_right (hab.trans hbc)
      rw [h1, h2, (by ring : a + b + c - a - c = b)]
    · rw [if_neg hab]
      have hba : b ≤ a := le_of_not_le hab
      by_cases hac : a ≤ c
      · rw [if_pos hac]
        have h1 : min a (min b c) = b := by
          rw [min_eq_left hbc]; exact min_eq_right hba
        have h2 : max a (max b c) = c := by
          rw [max_eq_right hbc]; exact max_eq_right hac
        rw [h1, h2, (by ring : a + b + c - b - c = a)]
      · rw [if_neg hac]
        have hca : c ≤ a := le_of_not_le hac
        have h1 : min a (min b c) = b := by
          rw [min_eq_left hbc]; exact min_eq_right hba
        have h2 : max a (max b c) = a := by
          rw [max_eq_right hbc]; exact max_eq_left hca
        rw [h1, h2, (by ring : a + b + c - b - a = c)]
  · rw [if_neg hbc]
    simp only [List.orderedInsert]
    have hcb : c ≤ b := le_of_not_le hbc
    by_cases hac : a ≤ c
    · rw [if_pos hac]
      have h1 : min a (min b c) = a := by
        rw [min_eq_right hcb]; exact min_eq_left hac
      have h2 : max a (max b c) = b := by
        rw [max_eq_left hcb]; exact max_eq_right (hac.trans hcb)
      rw [h1, h2, (by ring : a + b + c - a - b = c)]
    · rw [if_neg hac]
      have hca : c ≤ a := le_of_not_le hac
      by_cases hab : a ≤ b
      · rw [if_pos hab]
        have h1 : min a (min b c) = c := by
          rw [min_eq_right hcb]; exact min_eq_right hca
        have h2 : max a (max b c) = b := by
          rw [max_eq_left hcb]; exact max_eq_right hab
        rw [h1, h2, (by ring : a + b + c - c - b = a)]
      · rw [if_neg hab]
        have hba : b ≤ a := le_of_not_le hab
        have h1 : min a (min b c) = c := by
          rw [min_eq_right hcb]; exact min_eq_right hca
        have h2 : max a (max b c) = a := by
          rw [max_eq_left hcb]; exact max_eq_left hba
        rw [h1, h2, (by ring : a + b + c - c - a = b)]

theorem analyze_density_eq (params : DetectionParams) (points : List Pt)
    (c : List ℕ) :
    (analyze_cluster_geometry params points c).density = specDensity points c := by
  simp [analyze_cluster_geometry, specDensity, specSizes]

theorem analyze_vehicle_eq (params : DetectionParams) (points : List Pt)
    (c : List ℕ) :
    (analyze_cluster_geometry params points c).vehicle_like =
      specVehicleLike params points c := by
  simp only [analyze_cluster_geometry, specVehicleLike]
  rw [insertionSort_triple]
  simp only [specSizes]
  simp [Bool.decide_and, Bool.and_assoc]

theorem isDynamicCluster_eq_rule (params : DetectionParams) (points : List Pt)
    (c : List ℕ) :
    isDynamicCluster params points c = classifyRuleSpec params points c := by
  unfold isDynamicCluster classifyRuleSpec
  by_cases h5 : c.length < 5
  · simp [h5]
  · simp only [if_neg h5]
    rw [show (analyze_cluster_geometry params points c).vehicle_like =
        specVehicleLike params points c from analyze_vehicle_eq params points c]
    rw [show (analyze_cluster_geometry params points c).density =
        specDensity points c from analyze_density_eq params points c]
    have hdz : (analyze_cluster_geometry params points c).dims.z =
        (specSizes points c).z := rfl
    rw [hdz]
    by_cases h1 : specVehicleLike params points c
    · simp [h1]
    · by_cases h2 : specDensity points c < params.density_threshold
      · simp [h1, h2]
      · by_cases h3 : (4 : ℚ) < (specSizes points c).z
        · simp [h1, h2, h3]
        · simp [h1, h2, h3]

/-!
## Claim theorems
-/

/-- C5: for every cluster, classification evaluates the rules in the fixed
order with first match winning — fewer than 5 points → static; else
vehicle-like (sorted ascending sizes against the configured ranges) →
dynamic; else density below `density_threshold` (default 0.1) → dynamic;
else Z extent above 4.0 → dynamic; else static.  `classify_clusters`
splits its input exactly by that spec-worded rule chain. -/
theorem c5_classification_rule_order (params : DetectionParams)
    (points : List Pt) (clusters : List (List ℕ)) :
    classify_clusters params points clusters =
      (clusters.filter (fun c => classifyRuleSpec params points c),
       clusters.filter (fun c => !(classifyRuleSpec params points c))) ∧
    defaultParams.density_threshold = 1/10 := by
  constructor
  · unfold classify_clusters
    have h1 : clusters.filter (isDynamicCluster params points) =
        clusters.filter (fun c => classifyRuleSpec params points c) :=
      List.filter_congr (fun c _ => isDynamicCluster_eq_rule params points c)
    have h2 : clusters.filter (fun c => !(isDynamicCluster params points c)) =
        clusters.filter (fun c => !(classifyRuleSpec params points c)) :=
      List.filter_congr (fun c _ => by
        rw [isDynamicCluster_eq_rule params points c])
    rw [h1, h2]
  · rfl

/-- C8: running detection with no point cloud set, or with an empty
(zero-point) point cloud, raises an error and produces no
`DetectionResult`, whatever the parameters, the RANSAC outcome and the
subsample draw. -/
theorem c8_no_input_is_error (params : DetectionParams) (method : String)
    (ransacOutcome : Option Plane) (sample : List ℕ) :
    detect_dynamic_objects params method none ransacOutcome sample =
      .error "No point cloud set" ∧
    detect_dynamic_objects params method (some []) ransacOutcome sample =
      .error "cannot do a non-empty take from an empty axes" :=
  ⟨rfl, rfl⟩

/-- A degenerate cluster for C9: five coincident points. -/
def c9Pts : List Pt := List.replicate 5 ⟨1, 2, 3⟩

/-- C9 counterexample: for the cluster of five coincident points the
*returned* volume is the raw product `0`, not the clamped
`max (product) 1e-6` claimed (which is `1e-6 ≠ 0`); the clamp only guards
the density denominator (density = 5 / 1e-6 = 5000000). -/
theorem c9_counterexample :
    (analyze_cluster_geometry defaultParams c9Pts (List.range 5)).volume = 0 ∧
    (analyze_cluster_geometry defaultParams c9Pts (List.range 5)).density =
      5000000 ∧
    (analyze_cluster_geometry defaultParams c9Pts (List.range 5)).volume ≠
      max ((analyze_cluster_geometry defaultParams c9Pts
              (List.range 5)).dims.x *
           (analyze_cluster_geometry defaultParams c9Pts
              (List.range 5)).dims.y *
           (analyze_cluster_geometry defaultParams c9Pts
              (List.range 5)).dims.z)
          (1/1000000) := by
  refine ⟨by decide, by decide, by decide⟩

/-- C9 (amended): the returned volume is the raw product of the per-axis
sizes (it can be 0 for a degenerate flat cluster); the density is the
point count divided by `max volume 1e-6`, whose denominator is always
positive, so the division is guarded against divide-by-zero. -/
theorem c9_density_guarded (params : DetectionParams) (points : List Pt)
    (c : List ℕ) :
    (analyze_cluster_geometry params points c).volume =
      (analyze_cluster_geometry params points c).dims.x *
      (analyze_cluster_geometry params points c).dims.y *
      (analyze_cluster_geometry params points c).dims.z ∧
    (analyze_cluster_geometry params points c).density =
      (c.length : ℚ) /
        max (analyze_cluster_geometry params points c).volume (1/1000000) ∧
    (0 : ℚ) < max (analyze_cluster_geometry params points c).volume
      (1/1000000) := by
  refine ⟨rfl, ?_, ?_⟩
  · simp [analyze_cluster_geometry]
  · exact lt_of_lt_of_le (by norm_num) (le_max_right _ _)

/-- C10: for every detection result and user-corrections dictionary, the
refinement operation is the identity and ignores the corrections. -/
theorem c10_refine_is_identity (result : DetectionResult)
    (user_corrections : List (String × String)) :
    refine_detection result user_corrections = result := rfl

/-- C7: for every point set the height filter returns two index sets that
partition the full input exactly, on both the plane path and the
percentile fallback path; and when no plane is available, a point is
classified above-ground iff its Z coordinate is strictly greater than the
10th percentile of all Z coordinates plus the height threshold. -/
theorem c7_height_filter_partition (params : DetectionParams)
    (plane : Option Plane) (points : List Pt) (above ground : List ℕ)
    (h : filter_by_height params plane points = some (above, ground)) :
    (∀ i, i < points.length →
      (i ∈ above ∧ i ∉ ground) ∨ (i ∈ ground ∧ i ∉ above)) ∧
    above.Nodup ∧ ground.Nodup ∧
    (∀ i ∈ above, i < points.length) ∧ (∀ i ∈ ground, i < points.length) ∧
    (∀ p10, plane = none → percentile10 (points.map Pt.z) = some p10 →
      ∀ i, i < points.length →
        (i ∈ above ↔
          p10 + params.height_threshold < (points.getD i default).z)) := by
  cases plane with
  | some pl =>
    simp only [filter_by_height, Option.some.injEq, Prod.mk.injEq] at h
    obtain ⟨ha, hg⟩ := h
    subst ha
    subst hg
    exact ⟨fun i hi => filter_range_partition _ _ i hi,
      (List.nodup_range _).filter _, (List.nodup_range _).filter _,
      fun i hi => List.mem_range.mp (List.mem_filter.mp hi).1,
      fun i hi => List.mem_range.mp (List.mem_filter.mp hi).1,
      fun p10 hnone => Option.noConfusion hnone⟩
  | none =>
    cases hp : percentile10 (points.map Pt.z) with
    | none =>
      rw [filter_by_height, hp] at h
      exact Option.noConfusion h
    | some p10 =>
      simp only [filter_by_height, hp, Option.some.injEq, Prod.mk.injEq] at h
      obtain ⟨ha, hg⟩ := h
      subst ha
      subst hg
      refine ⟨fun i hi => filter_range_partition _ _ i hi,
        (List.nodup_range _).filter _, (List.nodup_range _).filter _,
        fun i hi => List.mem_range.mp (List.mem_filter.mp hi).1,
        fun i hi => List.mem_range.mp (List.mem_filter.mp hi).1,
        fun q _ hq i hi => ?_⟩
      injection hq with hq
      subst hq
      simp [List.mem_filter, List.mem_range, hi]

/-- Concrete input for the C7 witness: two points, fallback path. -/
def c7Pts : List Pt := [⟨0, 0, 0⟩, ⟨0, 0, 5⟩]

theorem c7_height_filter_witness :
    filter_by_height defaultParams none c7Pts = some ([1], [0]) ∧
    (((1 : ℕ) ∈ [1] ∧ (1 : ℕ) ∉ [0]) ∨ ((1 : ℕ) ∈ [0] ∧ (1 : ℕ) ∉ [1])) :=
  ⟨by decide,
    (c7_height_filter_partition defaultParams none c7Pts [1] [0]
      (by decide)).1 1 (by decide)⟩

/-- The 12-point cloud for the C1 counterexample: eleven points on the
ground and one isolated point 10 m up.  With the percentile fallback the
high point is above ground, and DBSCAN (min_samples = 10) marks the
singleton as noise, so no cluster contains it. -/
def c1Pts : List Pt := List.replicate 11 ⟨0, 0, 0⟩ ++ [⟨0, 0, 10⟩]

/-- The detection result the pipeline produces on `c1Pts`. -/
def c1Result : DetectionResult :=
  ⟨[], List.range 11, [], List.replicate 11 (9/10) ++ [1], "geometric"⟩

/-- C1 counterexample: a successful detection call on the non-empty
12-point cloud `c1Pts` for which index 11 — an above-ground point that
ends up in no cluster (DBSCAN noise) — appears in neither
`dynamic_indices` nor `static_indices`, so the two sets do not cover the
index range `[0, 12)`. -/
theorem c1_counterexample :
    detect_dynamic_objects defaultParams "geometric" (some c1Pts) none [] =
      .ok c1Result ∧
    11 < c1Pts.length ∧ 11 ∉ c1Result.dynamic_indices ∧
    11 ∉ c1Result.static_indices := by decide

/-- C1 (amended): for every successful detection call, an input index is
covered by `dynamic_indices ∪ static_indices` exactly when it is a ground
index or belongs to some returned cluster; the above-ground points in no
cluster (DBSCAN noise) are the indices left out of both sets. -/
theorem c1_coverage_amended (params : DetectionParams) (method : String)
    (points : List Pt) (ransacOutcome : Option Plane) (sample : List ℕ)
    (r : DetectionResult) (above ground : List ℕ)
    (hdet : detect_dynamic_objects params method (some points) ransacOutcome
      sample = .ok r)
    (hfil : filter_by_height params (detect_ground_plane points ransacOutcome)
      points = some (above, ground)) :
    ∀ i, i < points.length →
      ((i ∈ r.dynamic_indices ∨ i ∈ r.static_indices) ↔
        (i ∈ ground ∨ ∃ c ∈ r.clusters, i ∈ c)) := by
  rw [detect_dynamic_objects, hfil, detect_after_filter] at hdet
  injection hdet with hdet
  subst hdet
  intro i hi
  simp only [classify_clusters]
  constructor
  · rintro (hd | hs)
    · obtain ⟨c, hc, hic⟩ := List.mem_flatten.mp hd
      exact Or.inr ⟨c, (List.mem_filter.mp hc).1, hic⟩
    · rcases List.mem_append.mp hs with hg | hf
      · exact Or.inl hg
      · obtain ⟨c, hc, hic⟩ := List.mem_flatten.mp hf
        exact Or.inr ⟨c, (List.mem_filter.mp hc).1, hic⟩
  · rintro (hg | ⟨c, hc, hic⟩)
    · exact Or.inr (List.mem_append.mpr (Or.inl hg))
    · by_cases hdyn : isDynamicCluster params points c
      · exact Or.inl (List.mem_flatten.mpr
          ⟨c, List.mem_filter.mpr ⟨hc, by simpa using hdyn⟩, hic⟩)
      · refine Or.inr (List.mem_append.mpr (Or.inr
          (List.mem_flatten.mpr ⟨c, List.mem_filter.mpr ⟨hc, ?_⟩, hic⟩)))
        simpa using hdyn

theorem c1_amended_witness :
    (detect_dynamic_objects defaultParams "geometric" (some c1Pts) none [] =
      .ok c1Result) ∧
    ((5 ∈ c1Result.dynamic_indices ∨ 5 ∈ c1Result.static_indices) ↔
      (5 ∈ List.range 11 ∨ ∃ c ∈ c1Result.clusters, 5 ∈ c)) :=
  ⟨by decide,
    c1_coverage_amended defaultParams "geometric" c1Pts none [] c1Result
      [11] (List.range 11) (by decide) (by decide) 5 (by decide)⟩

/-- C3 (amended): for every successful detection call, the confidence
array has one entry per point; every entry is 1, 0.8 or 0.9 and hence lies
in [0, 1]; every static index has confidence exactly 0.9; and every
dynamic index has confidence exactly 0.8 *unless* it also lies in
`static_indices` (possible on the large-dataset path, where the later
static write of 0.9 wins). -/
theorem c3_confidence_amended (params : DetectionParams) (method : String)
    (points : List Pt) (ransacOutcome : Option Plane) (sample : List ℕ)
    (r : DetectionResult)
    (hdet : detect_dynamic_objects params method (some points) ransacOutcome
      sample = .ok r) :
    r.confidence_scores.length = points.length ∧
    (∀ q ∈ r.confidence_scores, q = 1 ∨ q = 8/10 ∨ q = 9/10) ∧
    (∀ q ∈ r.confidence_scores, 0 ≤ q ∧ q ≤ 1) ∧
    (∀ i, i < points.length → i ∈ r.static_indices →
      r.confidence_scores.getD i 0 = 9/10) ∧
    (∀ i, i < points.length → i ∈ r.dynamic_indices →
      i ∉ r.static_indices → r.confidence_scores.getD i 0 = 8/10) := by
  cases hfil : filter_by_height params
      (detect_ground_plane points ransacOutcome) points with
  | none =>
    rw [detect_dynamic_objects, hfil, detect_after_filter] at hdet
    exact Except.noConfusion hdet
  | some ag =>
    obtain ⟨above, ground⟩ := ag
    rw [detect_dynamic_objects, hfil, detect_after_filter] at hdet
    injection hdet with hdet
    subst hdet
    have hval : ∀ q ∈ ((List.range points.length).map (fun i =>
        if i ∈ ground ++ (classify_clusters params points
          (cluster_points params points above sample)).2.flatten then
          (9/10 : ℚ)
        else if i ∈ (classify_clusters params points
          (cluster_points params points above sample)).1.flatten then 8/10
        else 1)), q = 1 ∨ q = 8/10 ∨ q = 9/10 := by
      intro q hq
      obtain ⟨i, _, hfq⟩ := List.mem_map.mp hq
      subst hfq
      split
      · exact Or.inr (Or.inr rfl)
      · split
        · exact Or.inr (Or.inl rfl)
        · exact Or.inl rfl
    have hget : ∀ i, i < points.length →
        (((List.range points.length).map (fun i =>
          if i ∈ ground ++ (classify_clusters params points
            (cluster_points params points above sample)).2.flatten then
            (9/10 : ℚ)
          else if i ∈ (classify_clusters params points
            (cluster_points params points above sample)).1.flatten then 8/10
          else 1))).getD i 0 =
          (if i ∈ ground ++ (classify_clusters params points
            (cluster_points params points above sample)).2.flatten then
            (9/10 : ℚ)
          else if i ∈ (classify_clusters params points
            (cluster_points params points above sample)).1.flatten then 8/10
          else 1) := by
      intro i hi
      rw [List.getD_eq_getElem _ _ (by simpa using hi)]
      simp
    refine ⟨by simp, hval, ?_, ?_, ?_⟩
    · intro q hq
      rcases hval q hq with h | h | h <;> rw [h] <;> norm_num
    · intro i hi hs
      rw [hget i hi, if_pos hs]
    · intro i hi hd hs
      rw [hget i hi, if_neg hs, if_pos hd]

theorem c3_amended_witness :
    (detect_dynamic_objects defaultParams "geometric" (some c1Pts) none [] =
      .ok c1Result) ∧
    c1Result.confidence_scores.getD 3 0 = 9/10 :=
  ⟨by decide,
    (c3_confidence_amended defaultParams "geometric" c1Pts none [] c1Result
      (by decide)).2.2.2.1 3 (by decide) (by decide)⟩

/-!
## C4: the large-dataset path
-/

theorem sampleSize_eq (n : ℕ) (hn : 30000 < n) :
    sampleSize n = min (3 * n / 10) 20000 := by
  have hn0 : (0 : ℚ) < (n : ℚ) := by
    have : 0 < n := by omega
    exact_mod_cast this
  unfold sampleSize
  rw [mul_min_of_nonneg _ _ (le_of_lt hn0)]
  have h2 : (n : ℚ) * (20000 / (n : ℚ)) = 20000 := by
    field_simp
  have h3 : (n : ℚ) * (3 / 10) = ((3 * n : ℕ) : ℚ) / ((10 : ℕ) : ℚ) := by
    push_cast
    ring
  rw [h2, h3]
  have hfloor : ⌊((3 * n : ℕ) : ℚ) / ((10 : ℕ) : ℚ)⌋₊ = 3 * n / 10 := by
    rw [Nat.floor_div_nat, Nat.floor_natCast]
  rcases le_total (((3 * n : ℕ) : ℚ) / ((10 : ℕ) : ℚ)) 20000 with h | h
  · rw [min_eq_left h, hfloor]
    have hle : 3 * n ≤ 200000 := by
      have := (div_le_iff (by norm_num : (0:ℚ) < ((10:ℕ):ℚ))).mp h
      exact_mod_cast this
    have : 3 * n / 10 ≤ 20000 := by omega
    rw [min_eq_left this]
  · rw [min_eq_right h, Nat.floor_ofNat]
    have hge : 200000 ≤ 3 * n := by
      have := (le_div_iff (by norm_num : (0:ℚ) < ((10:ℕ):ℚ))).mp h
      exact_mod_cast this
    have : 20000 ≤ 3 * n / 10 := by omega
    rw [min_eq_right this]

theorem large_branch_eq (ms : ℕ) (indices : List ℕ) (cand : List Pt)
    (ctr : Pt) (rad2 : ℚ) (hlen : indices.length = cand.length) :
    (if ms ≤ countTrue (cand.map (fun p => decide (sqDist p ctr ≤ rad2)))
     then some (maskSelect indices
       (cand.map (fun p => decide (sqDist p ctr ≤ rad2))))
     else none) =
    (if ms ≤ (((indices.zip cand).filter
        (fun ip => decide (sqDist ip.2 ctr ≤ rad2))).map Prod.fst).length
     then some (((indices.zip cand).filter
        (fun ip => decide (sqDist ip.2 ctr ≤ rad2))).map Prod.fst)
     else none) := by
  have h1 : maskSelect indices
      (cand.map (fun p => decide (sqDist p ctr ≤ rad2))) =
      ((indices.zip cand).filter
        (fun ip => decide (sqDist ip.2 ctr ≤ rad2))).map Prod.fst :=
    maskSelect_map_eq_zip indices cand (fun v => decide (sqDist v ctr ≤ rad2))
  have h2 : countTrue (cand.map (fun p => decide (sqDist p ctr ≤ rad2))) =
      (((indices.zip cand).filter
        (fun ip => decide (sqDist ip.2 ctr ≤ rad2))).map Prod.fst).length := by
    rw [countTrue_map_eq_filter_length]
    exact (zip_filter_snd_length indices cand
      (fun v => decide (sqDist v ctr ≤ rad2)) hlen).symm
  rw [h1, h2]

theorem cluster_points_large_eq (params : DetectionParams) (points : List Pt)
    (indices : List ℕ) (sample : List ℕ) (h : 30000 < indices.length) :
    cluster_points params points indices sample =
      largeClusterSpec params points indices sample := by
  unfold cluster_points largeClusterSpec
  rw [if_neg (by omega)]
  rw [if_pos (by rw [List.length_map]; exact h)]
  unfold_let
  congr 1
  funext l
  rw [maskSelect_map_eq_zip]
  exact large_branch_eq params.cluster_min_samples indices
    (indices.map (fun i => points.getD i default)) _ _
    (by rw [List.length_map])

/-- C4: for candidate sets above the 30,000-point threshold, clustering
follows exactly the spec's steps — the subsample has size
`min(30% of the candidate count, 20,000)` (as drawn by
`np.random.choice` without replacement), exact DBSCAN runs on the
subsample with `min_samples` relaxed to `max 5 (min_samples / 2)` and the
same eps, each non-noise subsample cluster is expanded to all candidate
points within `1.5 × eps` of its centroid, and the expanded cluster is
kept only if its point count is at least the original `min_samples`. -/
theorem c4_large_dataset_path (params : DetectionParams) (points : List Pt)
    (indices : List ℕ) (sample : List ℕ) (h : 30000 < indices.length) :
    cluster_points params points indices sample =
      largeClusterSpec params points indices sample ∧
    sampleSize indices.length = min (3 * indices.length / 10) 20000 :=
  ⟨cluster_points_large_eq params points indices sample h,
   sampleSize_eq indices.length h⟩

/-!
## C2: disjointness
-/

def ptA : Pt := ⟨0, 0, 1⟩

def ptB : Pt := ⟨5, 0, 1⟩

def ptW : Pt := ⟨5/2, 0, 1⟩

def ptT1 : Pt := ⟨0, 0, -3/2⟩

def ptT2 : Pt := ⟨0, 0, 7/2⟩

def ptG1 : Pt := ⟨50, 50, 0⟩

def ptG2 : Pt := ⟨-50, 50, 0⟩

def ptG3 : Pt := ⟨0, -50, 0⟩

def ceBlob : List Pt :=
  List.replicate 15000 ptA ++ (List.replicate 14998 ptB ++ [ptW, ptT1, ptT2])

def ceGround : List Pt :=
  List.replicate 40000 ptG1 ++
    (List.replicate 40000 ptG2 ++ List.replicate 40000 ptG3)

def cePts : List Pt := ceBlob ++ ceGround

def ceGroundIdx : List ℕ := (List.range 120000).map (fun i => 30001 + i)

def ceSample : List ℕ :=
  List.range 4500 ++ (List.range 4500).map (fun i => 15000 + i)

def ceParams : DetectionParams := { defaultParams with cluster_eps := 2 }

def ceGp : Plane := ⟨0, 0, 1, 0⟩

def ceSpts : List Pt :=
  List.replicate 4500 ptA ++ List.replicate 4500 ptB

def ceCluster0 : List ℕ := List.range 15000 ++ [29998, 29999, 30000]

def ceCluster1 : List ℕ :=
  (List.range 14998).map (fun i => 15000 + i) ++ [29998]

def ceConf (i : ℕ) : ℚ :=
  if i ∈ ceGroundIdx ++ ceCluster1 then (9/10 : ℚ)
  else if i ∈ ceCluster0 then 8/10 else 1

def ceResult : DetectionResult :=
  ⟨ceCluster0, ceGroundIdx ++ ceCluster1, [ceCluster0, ceCluster1],
   (List.range 150001).map ceConf, "geometric"⟩

theorem ceBlob_length : ceBlob.length = 30001 := by
  rw [ceBlob, List.length_append, List.length_append, List.length_replicate,
    List.length_replicate]
  rfl

theorem cePts_length : cePts.length = 150001 := by
  rw [cePts, List.length_append, ceBlob_length, ceGround,
    List.length_append, List.length_append, List.length_replicate,
    List.length_replicate, List.length_replicate]

theorem ceBlob_getD_A (i : ℕ) (h : i < 15000) :
    ceBlob.getD i default = ptA := by
  rw [ceBlob, List.getD_append _ _ _ _ (by rw [List.length_replicate]; exact h)]
  exact getD_replicate ptA default h

theorem ceBlob_getD_B (i : ℕ) (h1 : 15000 ≤ i) (h2 : i < 29998) :
    ceBlob.getD i default = ptB := by
  rw [ceBlob,
    List.getD_append_right _ _ _ _ (by rw [List.length_replicate]; exact h1)]
  rw [List.length_replicate]
  rw [List.getD_append _ _ _ _ (by rw [List.length_replicate]; omega)]
  exact getD_replicate ptB default (by omega)

theorem ceBlob_getD_W : ceBlob.getD 29998 default = ptW := by
  rw [ceBlob,
    List.getD_append_right _ _ _ _ (by rw [List.length_replicate]; norm_num)]
  rw [List.length_replicate]
  rw [List.getD_append_right _ _ _ _ (by rw [List.length_replicate])]
  rw [List.length_replicate]
  rfl

theorem ceBlob_getD_T1 : ceBlob.getD 29999 default = ptT1 := by
  rw [ceBlob,
    List.getD_append_right _ _ _ _ (by rw [List.length_replicate]; norm_num)]
  rw [List.length_replicate]
  rw [List.getD_append_right _ _ _ _ (by rw [List.length_replicate]; norm_num)]
  rw [List.length_replicate]
  rfl

theorem ceBlob_getD_T2 : ceBlob.getD 30000 default = ptT2 := by
  rw [ceBlob,
    List.getD_append_right _ _ _ _ (by rw [List.length_replicate]; norm_num)]
  rw [List.length_replicate]
  rw [List.getD_append_right _ _ _ _ (by rw [List.length_replicate]; norm_num)]
  rw [List.length_replicate]
  rfl

theorem cePts_getD_blob (i : ℕ) (h : i < 30001) :
    cePts.getD i default = ceBlob.getD i default := by
  rw [cePts, List.getD_append _ _ _ _ (by rw [ceBlob_length]; exact h)]

theorem cePts_getD_A (i : ℕ) (h : i < 15000) : cePts.getD i default = ptA := by
  rw [cePts_getD_blob i (by omega)]
  exact ceBlob_getD_A i h

theorem cePts_getD_B (i : ℕ) (h1 : 15000 ≤ i) (h2 : i < 29998) :
    cePts.getD i default = ptB := by
  rw [cePts_getD_blob i (by omega)]
  exact ceBlob_getD_B i h1 h2

theorem cePts_getD_W : cePts.getD 29998 default = ptW := by
  rw [cePts_getD_blob 29998 (by norm_num)]
  exact ceBlob_getD_W

theorem cePts_getD_T1 : cePts.getD 29999 default = ptT1 := by
  rw [cePts_getD_blob 29999 (by norm_num)]
  exact ceBlob_getD_T1

theorem cePts_getD_T2 : cePts.getD 30000 default = ptT2 := by
  rw [cePts_getD_blob 30000 (by norm_num)]
  exact ceBlob_getD_T2

theorem cePts_getD_G1 (i : ℕ) (h1 : 30001 ≤ i) (h2 : i < 70001) :
    cePts.getD i default = ptG1 := by
  rw [cePts, List.getD_append_right _ _ _ _ (by rw [ceBlob_length]; exact h1),
    ceBlob_length, ceGround,
    List.getD_append _ _ _ _ (by rw [List.length_replicate]; omega)]
  exact getD_replicate ptG1 default (by omega)

theorem cePts_getD_G2 (i : ℕ) (h1 : 70001 ≤ i) (h2 : i < 110001) :
    cePts.getD i default = ptG2 := by
  rw [cePts, List.getD_append_right _ _ _ _ (by rw [ceBlob_length]; omega),
    ceBlob_length, ceGround,
    List.getD_append_right _ _ _ _ (by rw [List.length_replicate]; omega),
    List.length_replicate,
    List.getD_append _ _ _ _ (by rw [List.length_replicate]; omega)]
  exact getD_replicate ptG2 default (by omega)

theorem cePts_getD_G3 (i : ℕ) (h1 : 110001 ≤ i) (h2 : i < 150001) :
    cePts.getD i default = ptG3 := by
  rw [cePts, List.getD_append_right _ _ _ _ (by rw [ceBlob_length]; omega),
    ceBlob_length, ceGround,
    List.getD_append_right _ _ _ _ (by rw [List.length_replicate]; omega),
    List.length_replicate,
    List.getD_append_right _ _ _ _ (by rw [List.length_replicate]; omega),
    List.length_replicate]
  exact getD_replicate ptG3 default (by omega)

theorem ce_spts_left :
    (List.range 4500).map (fun i => ceBlob.getD i default) =
      List.replicate 4500 ptA := by
  rw [List.eq_replicate_iff]
  refine ⟨by rw [List.length_map, List.length_range], ?_⟩
  intro b hb
  obtain ⟨i, hi, hbi⟩ := List.mem_map.mp hb
  rw [List.mem_range] at hi
  rw [← hbi]
  exact ceBlob_getD_A i (by omega)

theorem ce_spts_right :
    (List.range 4500).map
      ((fun i => ceBlob.getD i default) ∘ (fun i => 15000 + i)) =
      List.replicate 4500 ptB := by
  rw [List.eq_replicate_iff]
  refine ⟨by rw [List.length_map, List.length_range], ?_⟩
  intro b hb
  obtain ⟨i, hi, hbi⟩ := List.mem_map.mp hb
  rw [List.mem_range] at hi
  rw [← hbi]
  simp only [Function.comp_apply]
  exact ceBlob_getD_B (15000 + i) (by omega) (by omega)

theorem ce_spts :
    ceSample.map (fun i => ceBlob.getD i default) = ceSpts := by
  rw [ceSample, List.map_append, List.map_map, ce_spts_left, ce_spts_right,
    ceSpts]

theorem ce_firstDedup : firstDedup ceSpts = [ptA, ptB] := by
  rw [ceSpts]
  rw [firstDedup_replicate_append 4500 (by norm_num) ptA]
  rw [List.filter_replicate, if_pos (by decide)]
  rw [show List.replicate 4500 ptB =
    List.replicate 4500 ptB ++ ([] : List Pt) from (List.append_nil _).symm]
  rw [firstDedup_replicate_append 4500 (by norm_num) ptB]
  rfl

theorem ce_nbrA : nbrCount ceSpts 2 ptA = 4500 := by
  unfold nbrCount
  rw [ceSpts, List.filter_append, List.filter_replicate, List.filter_replicate]
  rw [if_pos (by decide), if_neg (by decide)]
  rw [List.append_nil, List.length_replicate]

theorem ce_nbrB : nbrCount ceSpts 2 ptB = 4500 := by
  unfold nbrCount
  rw [ceSpts, List.filter_append, List.filter_replicate, List.filter_replicate]
  rw [if_neg (by decide), if_pos (by decide)]
  rw [List.nil_append, List.length_replicate]

theorem ce_coreA : isCorePt ceSpts 2 5 ptA = true := by
  rw [isCorePt, ce_nbrA]
  rfl

theorem ce_coreB : isCorePt ceSpts 2 5 ptB = true := by
  rw [isCorePt, ce_nbrB]
  rfl

theorem ce_corePts : corePts ceSpts 2 5 = [ptA, ptB] := by
  unfold corePts
  rw [ce_firstDedup]
  rw [show ([ptA, ptB] : List Pt) = [ptA] ++ [ptB] from rfl]
  rw [List.filter_append]
  rw [List.filter_singleton, List.filter_singleton]
  rw [ce_coreA, ce_coreB]
  rfl

theorem ce_labelA : labelOf ceSpts 2 5 ptA = 0 := by
  simp only [labelOf, ce_corePts, ce_coreA, if_true]
  decide

theorem ce_labelB : labelOf ceSpts 2 5 ptB = 1 := by
  simp only [labelOf, ce_corePts, ce_coreB, if_true]
  decide

theorem ce_labels : dbscanLabels ceSpts 2 5 =
    List.replicate 4500 0 ++ List.replicate 4500 1 := by
  unfold dbscanLabels
  generalize hf : labelOf ceSpts 2 5 = f
  rw [show ceSpts = List.replicate 4500 ptA ++ List.replicate 4500 ptB
    from rfl]
  rw [List.map_append, List.map_replicate, List.map_replicate]
  rw [← hf, ce_labelA, ce_labelB]

theorem maskSelect_replicate_true_of {α : Type} (xs : List α) (k : ℕ)
    (h : xs.length = k) : maskSelect xs (List.replicate k true) = xs := by
  subst h
  exact maskSelect_replicate_true xs

theorem ceParams_eps : ceParams.cluster_eps = 2 := rfl

theorem ceParams_ms : ceParams.cluster_min_samples = 10 := rfl

theorem ce_uniqueLabels :
    uniqueLabels (List.replicate 4500 (0 : Int) ++ List.replicate 4500 1) =
      [0, 1] := by
  unfold uniqueLabels
  rw [List.dedup_append, dedup_replicate 4500 (by norm_num) 1,
    replicate_union 4500 (by norm_num) 0 [1]]
  decide

theorem ce_mask0 :
    (List.replicate 4500 (0 : Int) ++ List.replicate 4500 1).map
      (fun x => decide (x = 0)) =
      List.replicate 4500 true ++ List.replicate 4500 false := by
  rw [List.map_append, List.map_replicate, List.map_replicate]
  rfl

theorem ce_mask1 :
    (List.replicate 4500 (0 : Int) ++ List.replicate 4500 1).map
      (fun x => decide (x = 1)) =
      List.replicate 4500 false ++ List.replicate 4500 true := by
  rw [List.map_append, List.map_replicate, List.map_replicate]
  rfl

theorem ce_sel0 :
    maskSelect ceSpts (List.replicate 4500 true ++ List.replicate 4500 false) =
      List.replicate 4500 ptA := by
  rw [ceSpts,
    maskSelect_append _ _ _ _ (by rw [List.length_replicate, List.length_replicate]),
    maskSelect_replicate_true_of _ _ (List.length_replicate _ _),
    maskSelect_replicate_false, List.append_nil]

theorem ce_sel1 :
    maskSelect ceSpts (List.replicate 4500 false ++ List.replicate 4500 true) =
      List.replicate 4500 ptB := by
  rw [ceSpts,
    maskSelect_append _ _ _ _ (by rw [List.length_replicate, List.length_replicate]),
    maskSelect_replicate_true_of _ _ (List.length_replicate _ _),
    maskSelect_replicate_false, List.nil_append]

theorem ce_within0 :
    ceBlob.map (fun p => decide (sqDist p ptA ≤ ((2 : ℚ) * (3/2))^2)) =
      List.replicate 15000 true ++
        (List.replicate 14998 false ++ [true, true, true]) := by
  rw [ceBlob, List.map_append, List.map_append, List.map_replicate,
    List.map_replicate]
  rfl

theorem ce_within1 :
    ceBlob.map (fun p => decide (sqDist p ptB ≤ ((2 : ℚ) * (3/2))^2)) =
      List.replicate 15000 false ++
        (List.replicate 14998 true ++ [true, false, false]) := by
  rw [ceBlob, List.map_append, List.map_append, List.map_replicate,
    List.map_replicate]
  rfl

theorem ce_count0 :
    countTrue (List.replicate 15000 true ++
      (List.replicate 14998 false ++ [true, true, true])) = 15003 := by
  rw [countTrue_append, countTrue_append, countTrue_replicate_true,
    countTrue_replicate_false]
  rfl

theorem ce_count1 :
    countTrue (List.replicate 15000 false ++
      (List.replicate 14998 true ++ [true, false, false])) = 14999 := by
  rw [countTrue_append, countTrue_append, countTrue_replicate_true,
    countTrue_replicate_false]
  rfl

theorem ce_range_split :
    List.range 30001 = List.range 15000 ++
      ((List.range 14998).map (fun x => 15000 + x) ++
       (List.range 3).map ((fun x => 15000 + x) ∘ (fun x => 14998 + x))) := by
  rw [show (30001 : ℕ) = 15000 + 15001 from rfl, List.range_add,
    show (15001 : ℕ) = 14998 + 3 from rfl, List.range_add,
    List.map_append, List.map_map]

theorem ce_sel0p :
    maskSelect (List.range 30001)
      (List.replicate 15000 true ++
        (List.replicate 14998 false ++ [true, true, true])) = ceCluster0 := by
  rw [ce_range_split,
    maskSelect_append _ _ _ _
      (by rw [List.length_range, List.length_replicate]),
    maskSelect_append _ _ _ _
      (by rw [List.length_map, List.length_range, List.length_replicate]),
    maskSelect_replicate_true_of _ _ (List.length_range _),
    maskSelect_replicate_false,
    show (List.range 3).map ((fun x => 15000 + x) ∘ (fun x => 14998 + x)) =
      [29998, 29999, 30000] from rfl,
    show maskSelect [29998, 29999, 30000] [true, true, true] =
      [29998, 29999, 30000] from rfl,
    List.nil_append, ceCluster0]

theorem ce_sel1p :
    maskSelect (List.range 30001)
      (List.replicate 15000 false ++
        (List.replicate 14998 true ++ [true, false, false])) = ceCluster1 := by
  rw [ce_range_split,
    maskSelect_append _ _ _ _
      (by rw [List.length_range, List.length_replicate]),
    maskSelect_append _ _ _ _
      (by rw [List.length_map, List.length_range, List.length_replicate]),
    maskSelect_replicate_true_of _ _
      (by rw [List.length_map, List.length_range]),
    maskSelect_replicate_false,
    show (List.range 3).map ((fun x => 15000 + x) ∘ (fun x => 14998 + x)) =
      [29998, 29999, 30000] from rfl,
    show maskSelect [29998, 29999, 30000] [true, false, false] =
      [29998] from rfl,
    List.nil_append, ceCluster1]

theorem ce_hcpts :
    (List.range 30001).map (fun i => cePts.getD i default) = ceBlob := by
  have h : (List.range 30001).map (fun i => cePts.getD i default) =
      (List.range 30001).map (fun i => ceBlob.getD i default) :=
    List.map_congr_left
      (fun i hi => cePts_getD_blob i (List.mem_range.mp hi))
  rw [h]
  conv_lhs => rw [show (30001 : ℕ) = ceBlob.length from ceBlob_length.symm]
  exact map_getD_range ceBlob default


theorem filterMap_pair {α β : Type} (f : α → Option β) (a b : α) (x y : β)
    (ha : f a = some x) (hb : f b = some y) :
    List.filterMap f [a, b] = [x, y] := by
  rw [List.filterMap_cons, ha, List.filterMap_cons, hb, List.filterMap_nil]

theorem ce_cluster_points :
    cluster_points ceParams cePts (List.range 30001) ceSample =
      [ceCluster0, ceCluster1] := by
  simp only [cluster_points, List.length_map, List.length_range]
  rw [if_neg (by norm_num), if_pos (by norm_num)]
  rw [ce_hcpts, ce_spts, ceParams_eps, ceParams_ms,
    show max 5 (10 / 2) = 5 from rfl, ce_labels, ce_uniqueLabels,
    show ([0, 1] : List Int).filter (fun l => !(decide (l = -1))) = [0, 1]
      from by decide]
  refine filterMap_pair _ 0 1 ceCluster0 ceCluster1 ?_ ?_
  · beta_reduce
    rw [ce_mask0, ce_sel0, centroid_replicate 4500 (by norm_num) ptA,
      ce_within0, ce_count0, if_pos (by norm_num), ce_sel0p]
  · beta_reduce
    rw [ce_mask1, ce_sel1, centroid_replicate 4500 (by norm_num) ptB,
      ce_within1, ce_count1, if_pos (by norm_num), ce_sel1p]

theorem ce_cp0_left :
    (List.range 15000).map (fun i => cePts.getD i default) =
      List.replicate 15000 ptA := by
  rw [List.eq_replicate_iff]
  refine ⟨by rw [List.length_map, List.length_range], ?_⟩
  intro b hb
  obtain ⟨i, hi, hbi⟩ := List.mem_map.mp hb
  rw [List.mem_range] at hi
  rw [← hbi]
  exact cePts_getD_A i hi

theorem ce_cp0 : ceCluster0.map (fun i => cePts.getD i default) =
    List.replicate 15000 ptA ++ [ptW, ptT1, ptT2] := by
  have htail : ([29998, 29999, 30000] : List ℕ).map
      (fun i => cePts.getD i default) = [ptW, ptT1, ptT2] := by
    rw [List.map_cons, List.map_cons, List.map_cons, List.map_nil,
      cePts_getD_W, cePts_getD_T1, cePts_getD_T2]
  rw [ceCluster0, List.map_append, ce_cp0_left, htail]

theorem ce_cp1_left :
    ((List.range 14998).map (fun i => 15000 + i)).map
      (fun i => cePts.getD i default) = List.replicate 14998 ptB := by
  rw [List.map_map, List.eq_replicate_iff]
  refine ⟨by rw [List.length_map, List.length_range], ?_⟩
  intro b hb
  obtain ⟨i, hi, hbi⟩ := List.mem_map.mp hb
  rw [List.mem_range] at hi
  rw [← hbi]
  simp only [Function.comp_apply]
  exact cePts_getD_B (15000 + i) (by omega) (by omega)

theorem ce_cp1 : ceCluster1.map (fun i => cePts.getD i default) =
    List.replicate 14998 ptB ++ [ptW] := by
  have htail : ([29998] : List ℕ).map (fun i => cePts.getD i default) =
      [ptW] := by
    rw [List.map_cons, List.map_nil, cePts_getD_W]
  rw [ceCluster1, List.map_append, ce_cp1_left, htail]

theorem ce_geom0 : analyze_cluster_geometry ceParams cePts ceCluster0 =
    ⟨⟨5/4, 0, 1⟩, ⟨5/2, 0, 5⟩, 0, 15003000000, 15003, false, ⟨0, 0, -3/2⟩,
     ⟨5/2, 0, 7/2⟩⟩ := by
  simp only [analyze_cluster_geometry, ce_cp0]
  rw [List.map_append, List.map_append, List.map_append,
    List.map_replicate, List.map_replicate, List.map_replicate,
    List.length_append, List.length_replicate,
    minQ_replicate_append 15000 (by norm_num),
    minQ_replicate_append 15000 (by norm_num),
    minQ_replicate_append 15000 (by norm_num),
    maxQ_replicate_append 15000 (by norm_num),
    maxQ_replicate_append 15000 (by norm_num),
    maxQ_replicate_append 15000 (by norm_num)]
  rfl

theorem ce_geom1 : analyze_cluster_geometry ceParams cePts ceCluster1 =
    ⟨⟨15/4, 0, 1⟩, ⟨5/2, 0, 0⟩, 0, 14999000000, 14999, false, ⟨5/2, 0, 1⟩,
     ⟨5, 0, 1⟩⟩ := by
  simp only [analyze_cluster_geometry, ce_cp1]
  rw [List.map_append, List.map_append, List.map_append,
    List.map_replicate, List.map_replicate, List.map_replicate,
    List.length_append, List.length_replicate,
    minQ_replicate_append 14998 (by norm_num),
    minQ_replicate_append 14998 (by norm_num),
    minQ_replicate_append 14998 (by norm_num),
    maxQ_replicate_append 14998 (by norm_num),
    maxQ_replicate_append 14998 (by norm_num),
    maxQ_replicate_append 14998 (by norm_num)]
  rfl

theorem ce_isDyn0 : isDynamicCluster ceParams cePts ceCluster0 = true := by
  rw [isDynamicCluster,
    if_neg (show ¬ ceCluster0.length < 5 from by
      rw [ceCluster0, List.length_append, List.length_range]; norm_num),
    ce_geom0]
  decide

theorem ce_isDyn1 : isDynamicCluster ceParams cePts ceCluster1 = false := by
  rw [isDynamicCluster,
    if_neg (show ¬ ceCluster1.length < 5 from by
      rw [ceCluster1, List.length_append, List.length_map, List.length_range]
      norm_num),
    ce_geom1]
  decide

theorem ce_above (i : ℕ) (hi : i < 30001) :
    aboveB ceParams ceGp (cePts.getD i default) = true := by
  rcases Nat.lt_or_ge i 15000 with h | h
  · rw [cePts_getD_A i h]
    decide
  · rcases Nat.lt_or_ge i 29998 with h2 | h2
    · rw [cePts_getD_B i h h2]
      decide
    · have h3 : i = 29998 ∨ i = 29999 ∨ i = 30000 := by omega
      rcases h3 with rfl | rfl | rfl
      · rw [cePts_getD_W]
        decide
      · rw [cePts_getD_T1]
        decide
      · rw [cePts_getD_T2]
        decide

theorem ce_ground (i : ℕ) (h1 : 30001 ≤ i) (h2 : i < 150001) :
    aboveB ceParams ceGp (cePts.getD i default) = false := by
  rcases Nat.lt_or_ge i 70001 with h | h
  · rw [cePts_getD_G1 i h1 h]
    decide
  · rcases Nat.lt_or_ge i 110001 with h3 | h3
    · rw [cePts_getD_G2 i h h3]
      decide
    · rw [cePts_getD_G3 i h3 h2]
      decide

theorem ce_range_150001 :
    List.range 150001 =
      List.range 30001 ++ (List.range 120000).map (fun i => 30001 + i) := by
  rw [show (150001 : ℕ) = 30001 + 120000 from rfl, List.range_add]

theorem ce_filter :
    filter_by_height ceParams (some ceGp) cePts =
      some (List.range 30001, ceGroundIdx) := by
  simp only [filter_by_height]
  rw [cePts_length, ce_range_150001, List.filter_append, List.filter_append]
  have h1 : (List.range 30001).filter
      (fun i => aboveB ceParams ceGp (cePts.getD i default)) =
      List.range 30001 :=
    List.filter_eq_self.mpr (fun i hi => ce_above i (List.mem_range.mp hi))
  have h2 : ((List.range 120000).map (fun i => 30001 + i)).filter
      (fun i => aboveB ceParams ceGp (cePts.getD i default)) = [] := by
    rw [List.filter_eq_nil]
    intro i hi
    obtain ⟨j, hj, hji⟩ := List.mem_map.mp hi
    rw [List.mem_range] at hj
    rw [← hji, ce_ground (30001 + j) (by omega) (by omega)]
    decide
  have h3 : (List.range 30001).filter
      (fun i => !(aboveB ceParams ceGp (cePts.getD i default))) = [] := by
    rw [List.filter_eq_nil]
    intro i hi
    rw [ce_above i (List.mem_range.mp hi)]
    decide
  have h4 : ((List.range 120000).map (fun i => 30001 + i)).filter
      (fun i => !(aboveB ceParams ceGp (cePts.getD i default))) =
      (List.range 120000).map (fun i => 30001 + i) := by
    refine List.filter_eq_self.mpr ?_
    intro i hi
    obtain ⟨j, hj, hji⟩ := List.mem_map.mp hi
    rw [List.mem_range] at hj
    rw [← hji, ce_ground (30001 + j) (by omega) (by omega)]
    decide
  rw [h1, h2, h3, h4, List.append_nil, List.nil_append, ceGroundIdx]

theorem ce_plane : detect_ground_plane cePts (some ceGp) = some ceGp := by
  rw [detect_ground_plane, cePts_length]
  rfl

theorem ce_classify1 :
    (classify_clusters ceParams cePts [ceCluster0, ceCluster1]).1 =
      [ceCluster0] := by
  simp only [classify_clusters]
  rw [List.filter_cons, List.filter_cons, List.filter_nil, ce_isDyn0,
    ce_isDyn1]
  rfl

theorem ce_classify2 :
    (classify_clusters ceParams cePts [ceCluster0, ceCluster1]).2 =
      [ceCluster1] := by
  simp only [classify_clusters]
  rw [List.filter_cons, List.filter_cons, List.filter_nil, ce_isDyn0,
    ce_isDyn1]
  rfl

theorem ce_detect :
    detect_dynamic_objects ceParams "geometric" (some cePts) (some ceGp)
      ceSample = .ok ceResult := by
  rw [detect_dynamic_objects, ce_plane, ce_filter, detect_after_filter]
  rw [ce_cluster_points, ce_classify1, ce_classify2]
  rw [List.flatten_cons, List.flatten_nil, List.append_nil,
    List.flatten_cons, List.flatten_nil, List.append_nil,
    cePts_length]
  rw [show ceResult = ⟨ceCluster0, ceGroundIdx ++ ceCluster1,
    [ceCluster0, ceCluster1],
    (List.range 150001).map ceConf, "geometric"⟩ from rfl]
  refine congrArg Except.ok ?_
  refine congrArg (fun conf => DetectionResult.mk ceCluster0
    (ceGroundIdx ++ ceCluster1) [ceCluster0, ceCluster1] conf "geometric") ?_
  refine congrArg (fun f => List.map f (List.range 150001)) ?_
  funext i
  rw [ceConf]

theorem c4_large_dataset_path_witness :
    30000 < (List.range 30001).length ∧
    (cluster_points defaultParams [] (List.range 30001) [] =
      largeClusterSpec defaultParams [] (List.range 30001) [] ∧
     sampleSize (List.range 30001).length =
      min (3 * (List.range 30001).length / 10) 20000) :=
  ⟨by norm_num [List.length_range],
   c4_large_dataset_path defaultParams [] (List.range 30001) []
     (by norm_num [List.length_range])⟩

/-- Modelled from the spec: §4.1's inlier test with the source's
`distance_threshold = 0.1` (`segment_plane` call, line 65), in squared
form `(a·x+b·y+c·z+d)² ≤ 0.1² · (a²+b²+c²)` so that it applies to
unnormalized plane coefficients (the count is invariant under scaling,
including the sign of the normal). -/
def inlierB (pl : Plane) (p : Pt) : Bool :=
  decide ((pl.a * p.x + pl.b * p.y + pl.c * p.z + pl.d)^2 ≤
    (1/10)^2 * (pl.a^2 + pl.b^2 + pl.c^2))

/-- Number of inliers of a candidate plane in a point set (§4.1). -/
def inlierCount (pl : Plane) (pts : List Pt) : ℕ :=
  pts.countP (inlierB pl)

/-- Modelled from the spec: the candidate plane §4.1's RANSAC fits
through a sampled triple — normal = cross product of two edge vectors,
`d` from the first point.  Left unnormalized (see `inlierB`); the zero
normal marks a degenerate (collinear) sample, which §4.1 rejects. -/
def planeThrough (p q r : Pt) : Plane :=
  let ux := q.x - p.x
  let uy := q.y - p.y
  let uz := q.z - p.z
  let vx := r.x - p.x
  let vy := r.y - p.y
  let vz := r.z - p.z
  let na := uy * vz - uz * vy
  let nb := uz * vx - ux * vz
  let nc := ux * vy - uy * vx
  ⟨na, nb, nc, -(na * p.x + nb * p.y + nc * p.z)⟩

/-- The eight distinct locations of the `cePts` cloud. -/
def ceLocs : List Pt := [ptA, ptB, ptW, ptT1, ptT2, ptG1, ptG2, ptG3]

/-- Inlier count over `cePts` restated per location with multiplicities,
so that it evaluates on small terms. -/
def inlierCountLocs (pl : Plane) : ℕ :=
  (if inlierB pl ptA then 15000 else 0) +
  (if inlierB pl ptB then 14998 else 0) +
  (if inlierB pl ptW then 1 else 0) +
  (if inlierB pl ptT1 then 1 else 0) +
  (if inlierB pl ptT2 then 1 else 0) +
  (if inlierB pl ptG1 then 40000 else 0) +
  (if inlierB pl ptG2 then 40000 else 0) +
  (if inlierB pl ptG3 then 40000 else 0)

theorem countP_replicate {α : Type} (p : α → Bool) (n : ℕ) (a : α) :
    List.countP p (List.replicate n a) = if p a then n else 0 := by
  induction n with
  | zero => cases h : p a <;> simp [h]
  | succ n ih =>
    rw [List.replicate_succ, List.countP_cons, ih]
    cases h : p a <;> simp [h]

theorem inlierCount_cePts (pl : Plane) :
    inlierCount pl cePts = inlierCountLocs pl := by
  rw [inlierCount, cePts, ceBlob, ceGround,
    List.countP_append, List.countP_append, List.countP_append,
    List.countP_append, List.countP_append,
    countP_replicate, countP_replicate, countP_replicate, countP_replicate,
    countP_replicate,
    List.countP_cons, List.countP_cons, List.countP_cons, List.countP_nil,
    inlierCountLocs]
  split_ifs <;> rfl

theorem ce_members_in_locs : ∀ p ∈ cePts, p ∈ ceLocs := by
  intro p hp
  rw [cePts] at hp
  rcases List.mem_append.mp hp with h | h
  · rw [ceBlob] at h
    rcases List.mem_append.mp h with h | h
    · rw [List.eq_of_mem_replicate h]
      decide
    · rcases List.mem_append.mp h with h | h
      · rw [List.eq_of_mem_replicate h]
        decide
      · rcases List.mem_cons.mp h with rfl | h
        · decide
        · rcases List.mem_cons.mp h with rfl | h
          · decide
          · rcases List.mem_cons.mp h with rfl | h
            · decide
            · exact absurd h (List.not_mem_nil p)
  · rw [ceGround] at h
    rcases List.mem_append.mp h with h | h
    · rw [List.eq_of_mem_replicate h]
      decide
    · rcases List.mem_append.mp h with h | h
      · rw [List.eq_of_mem_replicate h]
        decide
      · rw [List.eq_of_mem_replicate h]
        decide

theorem ce_ground_plane_fit :
    planeThrough ptG1 ptG2 ptG3 = ⟨0, 0, 10000, 0⟩ ∧
    inlierCountLocs ⟨0, 0, 10000, 0⟩ = 120000 ∧
    inlierCountLocs ceGp = 120000 := by
  refine ⟨by decide, by decide, by decide⟩

theorem ce_dominance : ∀ p ∈ ceLocs, ∀ q ∈ ceLocs, ∀ r ∈ ceLocs,
    ¬((planeThrough p q r).a = 0 ∧ (planeThrough p q r).b = 0 ∧
      (planeThrough p q r).c = 0) →
    inlierCountLocs (planeThrough p q r) ≤ 120000 ∧
    (inlierCountLocs (planeThrough p q r) = 120000 →
      (planeThrough p q r).a = 0 ∧ (planeThrough p q r).b = 0 ∧
      (planeThrough p q r).d = 0) := by
  decide

/-- §4.1 feasibility of the `ceGp` outcome at `cePts`: every cloud point
is one of the eight locations; `ceGp` (the plane `z = 0`) has 120,000
inliers, attained by the plane fit through the non-collinear ground
sample `ptG1, ptG2, ptG3`; and every non-degenerate plane fit through
three cloud points has at most that many inliers, with equality only
for the `z = 0` plane itself (coefficients `a = b = d = 0`, i.e. a
scaling of `ceGp`, whose normalized representative is `ceGp` up to the
sign the absolute-value distance test ignores).  So §4.1's max-inlier
RANSAC returns the `z = 0` plane on this cloud. -/
theorem ce_ransac_feasible :
    (∀ p ∈ cePts, p ∈ ceLocs) ∧
    inlierCount ceGp cePts = 120000 ∧
    (planeThrough ptG1 ptG2 ptG3 = ⟨0, 0, 10000, 0⟩ ∧
     inlierCount ⟨0, 0, 10000, 0⟩ cePts = 120000) ∧
    (∀ p ∈ ceLocs, ∀ q ∈ ceLocs, ∀ r ∈ ceLocs,
      ¬((planeThrough p q r).a = 0 ∧ (planeThrough p q r).b = 0 ∧
        (planeThrough p q r).c = 0) →
      inlierCount (planeThrough p q r) cePts ≤ inlierCount ceGp cePts ∧
      (inlierCount (planeThrough p q r) cePts = inlierCount ceGp cePts →
        (planeThrough p q r).a = 0 ∧ (planeThrough p q r).b = 0 ∧
        (planeThrough p q r).d = 0)) := by
  refine ⟨ce_members_in_locs, ?_, ⟨ce_ground_plane_fit.1, ?_⟩, ?_⟩
  · rw [inlierCount_cePts]
    exact ce_ground_plane_fit.2.2
  · rw [inlierCount_cePts]
    exact ce_ground_plane_fit.2.1
  · intro p hp q hq r hr hnd
    rw [inlierCount_cePts, inlierCount_cePts, ce_ground_plane_fit.2.2]
    exact ce_dominance p hp q hq r hr hnd

theorem ce_mem0 : 29998 ∈ ceCluster0 := by
  rw [ceCluster0]
  exact List.mem_append_right _ (by decide)

theorem ce_mem1 : 29998 ∈ ceCluster1 := by
  rw [ceCluster1]
  exact List.mem_append_right _ (by decide)

theorem ce_memS : 29998 ∈ ceGroundIdx ++ ceCluster1 :=
  List.mem_append_right _ ce_mem1

theorem ce_conf_29998 :
    ((List.range 150001).map ceConf).getD 29998 0 = 9/10 := by
  have hlt : 29998 < ((List.range 150001).map ceConf).length := by
    rw [List.length_map, List.length_range]
    decide
  rw [List.getD_eq_getElem _ _ hlt]
  simp only [List.getElem_map, List.getElem_range]
  rw [ceConf, if_pos ce_memS]

/-- C3 counterexample: a successful detection call on the large-dataset
path where index 29998 is in `dynamic_indices`, yet its confidence score
is 0.9 rather than the claimed 0.8: the later static write at the shared
index overwrote the dynamic one. -/
theorem c3_counterexample :
    detect_dynamic_objects ceParams "geometric" (some cePts) (some ceGp)
        ceSample = .ok ceResult ∧
      29998 ∈ ceResult.dynamic_indices ∧
      ceResult.confidence_scores.getD 29998 0 = 9/10 ∧
      ceResult.confidence_scores.getD 29998 0 ≠ 8/10 := by
  have hcs : ceResult.confidence_scores = (List.range 150001).map ceConf := by
    rw [show ceResult = (⟨ceCluster0, ceGroundIdx ++ ceCluster1,
      [ceCluster0, ceCluster1],
      (List.range 150001).map ceConf, "geometric"⟩ : DetectionResult) from
      rfl]
  have hc : ceResult.confidence_scores.getD 29998 0 = 9/10 := by
    rw [hcs]
    exact ce_conf_29998
  refine ⟨ce_detect, ce_mem0, hc, ?_⟩
  rw [hc]
  decide

end LidarEditor
